import Mathlib

/-!
Shallow embedding of the Zenith browser-extension session client:
the `useWebSocket` hook (transport connection manager + session reducer)
and the view projection in `AgentHUD` / the submit pipeline in
`IntentBar` / `App`.
-/

/-- One element of a `sub_tasks` sequence on the wire
(interface SubTaskInfo in useWebSocket.ts). -/
structure SubTaskInfo where
  id : Int
  desc : String
  status : String
deriving Repr, DecidableEq

/-- One inbound state_update frame (interface StateUpdate in useWebSocket.ts),
without its constant type tag. -/
structure StateUpdate where
  node : String
  thought : String
  node_status : String
  current_task_index : Int
  total_tasks : Int
  sub_tasks : List SubTaskInfo
deriving Repr, DecidableEq

/-- An inbound text frame as seen by ws.onmessage, after the JSON.parse
attempt and the dispatch on msg.type:
a frame either fails JSON.parse (malformed), or is JSON whose type field is
state_update, or result (carrying a summary string), or anything else. -/
inductive Inbound where
  | malformed : Inbound
  | stateUpdate (u : StateUpdate) : Inbound
  | result (summary : String) : Inbound
  | unknown (t : String) : Inbound
deriving Repr, DecidableEq

/-- The session reducer's state: the updates list and the summary,
the two useState cells of useWebSocket. -/
structure Session where
  updates : List StateUpdate
  summary : Option String
deriving Repr, DecidableEq

/-- ws.onmessage from useWebSocket.ts: a state_update frame is appended to
updates, a result frame sets summary, a malformed or unrecognized frame is
ignored (the empty catch block / the missing else branch). -/
def onMessage (s : Session) (f : Inbound) : Session :=
  match f with
  | .stateUpdate u => { s with updates := s.updates ++ [u] }
  | .result sum => { s with summary := some sum }
  | .unknown _ => s
  | .malformed => s

/-- The state_update payloads of the well-formed frames of a list,
in arrival order. -/
def wellFormedUpdates (fs : List Inbound) : List StateUpdate :=
  fs.filterMap fun f =>
    match f with
    | .stateUpdate u => some u
    | _ => none

/-- Whether a frame is a well-formed state_update frame. -/
def isStateUpdateFrame (f : Inbound) : Bool :=
  match f with
  | .stateUpdate _ => true
  | _ => false

theorem foldl_onMessage_updates (fs : List Inbound) (s : Session) :
    (fs.foldl onMessage s).updates = s.updates ++ wellFormedUpdates fs := by
  induction fs generalizing s with
  | nil => simp [wellFormedUpdates]
  | cons f fs ih =>
    cases f <;>
      simp [List.foldl_cons, onMessage, wellFormedUpdates, ih, List.filterMap_cons,
        List.append_assoc]

theorem length_wellFormedUpdates (fs : List Inbound) :
    (wellFormedUpdates fs).length = (fs.filter isStateUpdateFrame).length := by
  induction fs with
  | nil => rfl
  | cons f fs ih =>
    cases f <;>
      simp [wellFormedUpdates, isStateUpdateFrame, List.filterMap_cons,
        List.filter_cons] at ih ⊢ <;> simp [ih]

/-! ## View projection (AgentHUD.tsx) -/

/-- AgentHUD.tsx: const latest = updates[updates.length - 1] ?? null.
In JS an out-of-range index yields undefined, so this is the last element
when one exists. -/
def latestUpdate (updates : List StateUpdate) : Option StateUpdate :=
  updates.getLast?

/-- The projected subtask list: the sub_tasks of the latest update
(AgentHUD renders latest.sub_tasks and nothing from earlier updates),
empty when there is no update. -/
def projectedSubTasks (updates : List StateUpdate) : List SubTaskInfo :=
  match latestUpdate updates with
  | some u => u.sub_tasks
  | none => []

/-- AgentHUD.tsx final-summary block: the panel is guarded by the JS
truthiness test on the summary string, so a null summary and the empty
string both suppress it; when rendered it shows the summary verbatim. -/
def resultPanel (summary : Option String) : Option String :=
  match summary with
  | some s => if s = "" then none else some s
  | none => none

/-! ## Submit pipeline (useWebSocket.sendIntent, IntentBar.handleSubmit,
App.handleSubmit) -/

/-- The outbound wire frame built by sendIntent:
JSON.stringify of an object with type "intent" and payload the intent text. -/
structure OutboundIntent where
  type : String
  payload : String
deriving Repr, DecidableEq

/-- One primitive operation of the sendIntent body, in program order. -/
inductive SendOp where
  | setUpdatesEmpty : SendOp
  | setSummaryNone : SendOp
  | send (m : OutboundIntent) : SendOp
deriving Repr, DecidableEq

/-- The body of sendIntent as its ordered sequence of primitive operations:
setUpdates([]), then setSummary(null), then wsRef.current?.send(...) —
the send happens only when a socket instance exists (optional chaining). -/
def sendIntentOps (hasSocket : Bool) (intent : String) : List SendOp :=
  [.setUpdatesEmpty, .setSummaryNone] ++
    (if hasSocket then [.send ⟨"intent", intent⟩] else [])

/-- Effect of one sendIntent operation on the session state
(the send operation touches only the wire, not the session). -/
def applySendOp (s : Session) : SendOp → Session
  | .setUpdatesEmpty => { s with updates := [] }
  | .setSummaryNone => { s with summary := none }
  | .send _ => s

/-- The frame a sendIntent operation puts on the wire, if any. -/
def sentFrame : SendOp → Option OutboundIntent
  | .send m => some m
  | _ => none

/-- Net result of a submission path: the session afterwards and the frames
that reached the transport, in order. -/
structure SubmitResult where
  session : Session
  wire : List OutboundIntent
deriving Repr, DecidableEq

/-- Running the whole sendIntent body from a session state. -/
def sendIntentRun (hasSocket : Bool) (intent : String) (s : Session) :
    SubmitResult :=
  ⟨(sendIntentOps hasSocket intent).foldl applySendOp s,
    (sendIntentOps hasSocket intent).filterMap sentFrame⟩

/-- The connectivity signal exposed by useWebSocket
(the status useState cell). -/
inductive ConnStatus where
  | connecting : ConnStatus
  | connected : ConnStatus
  | disconnected : ConnStatus
deriving Repr, DecidableEq

/-- App.tsx line 31: the intent bar is disabled exactly when the
connectivity signal is not connected. -/
def intentBarDisabled (st : ConnStatus) : Bool :=
  st != .connected

/-- JS String.prototype.trim: strip whitespace from both ends. -/
def jsTrim (v : String) : String :=
  ⟨(((v.data.dropWhile Char.isWhitespace).reverse.dropWhile
      Char.isWhitespace).reverse)⟩

/-- IntentBar.handleSubmit composed with App.handleSubmit:
trim the field value; if the trimmed value is empty or the bar is disabled,
return without calling onSubmit; otherwise App.handleSubmit forwards the
trimmed intent to sendIntent. -/
def handleSubmit (st : ConnStatus) (value : String) (hasSocket : Bool)
    (s : Session) : SubmitResult :=
  let trimmed := jsTrim value
  if trimmed = "" || intentBarDisabled st then ⟨s, []⟩
  else sendIntentRun hasSocket trimmed s

/-! ## Transport connection manager (useWebSocket.ts connect / handlers)

Operational model. Socket instances are numbered in creation order; the
readyState of instance i is the i-th entry of the sockets list. Event
handlers are the closures the code attaches to each instance: they mention
the closure's own ws, never check instance identity against wsRef. Timers
are the pending setTimeout(connect, RECONNECT_INTERVAL_MS) callbacks,
recorded by their absolute fire time; nothing in the code ever clears one.
-/

/-- WebSocket readyState, with CLOSING covering the span between a close()
call and the delivery of the close event. -/
inductive ReadyState where
  | CONNECTING : ReadyState
  | OPEN : ReadyState
  | CLOSING : ReadyState
  | CLOSED : ReadyState
deriving Repr, DecidableEq

/-- useWebSocket.ts line 4. -/
def RECONNECT_INTERVAL_MS : Nat := 3000

/-- Whole-system state of one useWebSocket instance plus its environment
bookkeeping: current time, the socket instances created so far, wsRef,
the three useState cells (status and the session), the frames that reached
the wire, the pending reconnect timers, and whether the component has been
disposed. -/
structure SysState where
  now : Nat
  sockets : List ReadyState
  wsRef : Option Nat
  connSt : ConnStatus
  session : Session
  wire : List OutboundIntent
  timers : List Nat
  disposed : Bool
deriving Repr, DecidableEq

/-- readyState of instance i (an instance that was never created reads as
CLOSED, which keeps it undeliverable). -/
def readyStateOf (σ : SysState) (i : Nat) : ReadyState :=
  σ.sockets.getD i .CLOSED

/-- The connect() guard: wsRef.current?.readyState === WebSocket.OPEN. -/
def currentOpen (σ : SysState) : Bool :=
  match σ.wsRef with
  | some i => readyStateOf σ i == .OPEN
  | none => false

/-- connect() from useWebSocket.ts: no-op when the current socket is OPEN;
otherwise create a fresh WebSocket instance and point wsRef at it. The old
instance's handlers are not detached and no identity token is taken. -/
def connect (σ : SysState) : SysState :=
  if currentOpen σ then σ
  else { σ with sockets := σ.sockets ++ [.CONNECTING],
                wsRef := some σ.sockets.length }

/-- ws.close() as invoked by the code on instance i: transitions a
CONNECTING or OPEN socket to CLOSING; a no-op on a socket already closing
or closed. -/
def closeSocket (σ : SysState) (i : Nat) : SysState :=
  match readyStateOf σ i with
  | .CONNECTING => { σ with sockets := σ.sockets.set i .CLOSING }
  | .OPEN => { σ with sockets := σ.sockets.set i .CLOSING }
  | _ => σ

/-- The events the environment can deliver to the component. Socket events
carry the instance they fire on; timerFire carries the fire time of the
setTimeout callback it runs. -/
inductive Ev where
  | sockOpen (i : Nat) : Ev
  | sockMessage (i : Nat) (f : Inbound) : Ev
  | sockError (i : Nat) : Ev
  | sockClose (i : Nat) : Ev
  | timerFire (t : Nat) : Ev
  | tick (d : Nat) : Ev
  | submit (value : String) : Ev
  | dispose : Ev
deriving Repr, DecidableEq

/-- One step of the component: the handler code useWebSocket.ts attaches for
each event, verbatim.
sockOpen: ws.onopen sets status connected (the socket becomes OPEN).
sockMessage: ws.onmessage folds the frame into the session — with no check
that the delivering instance is still the current one.
sockError: ws.onerror calls ws.close() on its own instance.
sockClose: the socket is now CLOSED; ws.onclose sets status disconnected
and schedules setTimeout(connect, RECONNECT_INTERVAL_MS).
timerFire: the scheduled callback runs connect().
tick: time passes.
submit: the IntentBar/App submission pipeline runs against the current
status; frames it emits are appended to the wire.
dispose: the useEffect cleanup runs wsRef.current?.close() — and nothing
else: no timer is cleared, no handler detached. -/
def step (σ : SysState) (e : Ev) : SysState :=
  match e with
  | .sockOpen i =>
      { σ with sockets := σ.sockets.set i .OPEN, connSt := .connected }
  | .sockMessage _ f =>
      { σ with session := onMessage σ.session f }
  | .sockError i => closeSocket σ i
  | .sockClose i =>
      { σ with sockets := σ.sockets.set i .CLOSED,
               connSt := .disconnected,
               timers := σ.timers ++ [σ.now + RECONNECT_INTERVAL_MS] }
  | .timerFire t => connect { σ with timers := σ.timers.erase t }
  | .tick d => { σ with now := σ.now + d }
  | .submit v =>
      let r := handleSubmit σ.connSt v σ.wsRef.isSome σ.session
      { σ with session := r.session, wire := σ.wire ++ r.wire }
  | .dispose =>
      let σ' := match σ.wsRef with
        | some i => closeSocket σ i
        | none => σ
      { σ' with disposed := true }

/-- Which events the environment can actually deliver, following
single-threaded browser WebSocket semantics: a socket fires open only while
CONNECTING, messages and errors only until it is closed, exactly one close
event ends its life and nothing follows it; a setTimeout callback fires only
once, at or after its scheduled time; the user interacts (and disposal
happens) only before disposal. -/
def deliverable (σ : SysState) (e : Ev) : Bool :=
  match e with
  | .sockOpen i => readyStateOf σ i == .CONNECTING
  | .sockMessage i _ => readyStateOf σ i == .OPEN
  | .sockError i =>
      readyStateOf σ i == .CONNECTING || readyStateOf σ i == .OPEN
  | .sockClose i => readyStateOf σ i != .CLOSED
  | .timerFire t => σ.timers.contains t && t ≤ σ.now
  | .tick _ => true
  | .submit _ => !σ.disposed
  | .dispose => !σ.disposed

/-- The state after mount: the three useState initializers (connecting,
empty updates, null summary) and the useEffect body running connect(). -/
def initState : SysState :=
  connect { now := 0, sockets := [], wsRef := none, connSt := .connecting,
            session := ⟨[], none⟩, wire := [], timers := [],
            disposed := false }

/-- States the component can actually be in: the mount state, closed under
delivery of deliverable events. -/
inductive Reachable : SysState → Prop where
  | init : Reachable initState
  | step : ∀ σ e, Reachable σ → deliverable σ e = true → Reachable (step σ e)

/-- Run a list of events from a state. -/
def runEvents (σ : SysState) (es : List Ev) : SysState :=
  es.foldl step σ

/-! ## Claims about the reducer, projection and submit pipeline -/

/-- Claim C1: for every session state with a non-empty history and any
result (present or absent), running sendIntent clears the history to the
empty sequence and the result to absent before the outbound intent frame is
handed to the transport: every send operation in the body's operation
sequence sees the session already reset, and the final session is reset. -/
theorem sendIntent_resets_before_send (s : Session) (hasSocket : Bool)
    (intent : String) (_hne : s.updates ≠ []) :
    (∀ i m, (sendIntentOps hasSocket intent).get? i = some (.send m) →
      ((sendIntentOps hasSocket intent).take i).foldl applySendOp s =
        ⟨[], none⟩) ∧
    (sendIntentRun hasSocket intent s).session = ⟨[], none⟩ := by
  constructor
  · intro i m hi
    cases hasSocket with
    | false =>
      rcases i with _ | _ | i <;> simp [sendIntentOps, List.get?] at hi
    | true =>
      rcases i with _ | _ | _ | i <;>
        simp [sendIntentOps, List.get?] at hi ⊢
      simp [applySendOp]
  · cases hasSocket <;> simp [sendIntentRun, sendIntentOps, applySendOp]

theorem sendIntent_resets_before_send_witness :
    (sendIntentRun true "find gpu"
      (Session.mk [StateUpdate.mk "n" "t" "parse_intent" 0 1 []]
        (some "old"))).session = Session.mk [] none :=
  (sendIntent_resets_before_send _ true "find gpu" (by decide)).2

/-- Claim C2: submitting while the connectivity signal is anything other
than connected leaves the session untouched and puts nothing on the wire:
the intent bar is disabled exactly then, and its submit handler returns
before calling onSubmit. -/
theorem submit_gated_when_not_connected (st : ConnStatus) (value : String)
    (hasSocket : Bool) (s : Session) (h : st ≠ ConnStatus.connected) :
    handleSubmit st value hasSocket s = ⟨s, []⟩ := by
  cases st with
  | connected => exact absurd rfl h
  | connecting => simp [handleSubmit, intentBarDisabled]
  | disconnected => simp [handleSubmit, intentBarDisabled]

theorem submit_gated_when_not_connected_witness :
    handleSubmit ConnStatus.disconnected "find gpu" true
        (Session.mk [] none) =
      SubmitResult.mk (Session.mk [] none) [] :=
  submit_gated_when_not_connected ConnStatus.disconnected "find gpu" true
    (Session.mk [] none) (by decide)

/-- Claim C3: folding any sequence of inbound frames into a freshly reset
session leaves the history equal to exactly the well-formed state_update
frames in arrival order, so its length is the count of those frames; and a
frame that fails to parse or has an unrecognized type changes neither the
history nor the result. -/
theorem history_is_wellformed_updates (fs : List Inbound) (s : Session)
    (h : s.updates = []) :
    (fs.foldl onMessage s).updates = wellFormedUpdates fs ∧
    (fs.foldl onMessage s).updates.length =
      (fs.filter isStateUpdateFrame).length ∧
    (∀ s' : Session, onMessage s' .malformed = s') ∧
    (∀ (s' : Session) (t : String), onMessage s' (.unknown t) = s') := by
  refine ⟨?_, ?_, fun s' => rfl, fun s' t => rfl⟩
  · rw [foldl_onMessage_updates, h]; simp
  · rw [foldl_onMessage_updates, h]
    simp [length_wellFormedUpdates]

theorem history_is_wellformed_updates_witness :
    (List.foldl onMessage (Session.mk [] none)
        [Inbound.stateUpdate (StateUpdate.mk "a" "planning" "parse_intent" 0 1 []),
         Inbound.malformed,
         Inbound.result "ok",
         Inbound.unknown "ping",
         Inbound.stateUpdate (StateUpdate.mk "b" "acting" "browser_action" 0 1 [])]).updates =
      wellFormedUpdates
        [Inbound.stateUpdate (StateUpdate.mk "a" "planning" "parse_intent" 0 1 []),
         Inbound.malformed,
         Inbound.result "ok",
         Inbound.unknown "ping",
         Inbound.stateUpdate (StateUpdate.mk "b" "acting" "browser_action" 0 1 [])] :=
  (history_is_wellformed_updates _ (Session.mk [] none) rfl).1

/-- Claim C4: after two consecutive state_update frames with different
sub_tasks sequences, the projected subtask list equals exactly the second
frame's sub_tasks — the projection reads only the latest history element,
so nothing of the first frame or of any earlier history survives — and the
projection of an empty history is empty. -/
theorem second_frame_subtasks_authoritative (s : Session)
    (u1 u2 : StateUpdate) (_h : u1.sub_tasks ≠ u2.sub_tasks) :
    projectedSubTasks
        ((onMessage (onMessage s (.stateUpdate u1)) (.stateUpdate u2)).updates)
      = u2.sub_tasks ∧
    projectedSubTasks [] = [] := by
  constructor
  · simp [onMessage, projectedSubTasks, latestUpdate]
  · rfl

theorem second_frame_subtasks_authoritative_witness :
    projectedSubTasks
        ((onMessage
          (onMessage (Session.mk [] none)
            (Inbound.stateUpdate (StateUpdate.mk "a" "t" "parse_intent" 0 1
              [SubTaskInfo.mk 1 "search ebay" "pending"])))
          (Inbound.stateUpdate (StateUpdate.mk "a" "t" "browser_action" 0 1
            [SubTaskInfo.mk 1 "search ebay" "running"]))).updates) =
      [SubTaskInfo.mk 1 "search ebay" "running"] :=
  (second_frame_subtasks_authoritative (Session.mk [] none) _ _ (by decide)).1

/-- Claim C8 counterexample: a received result whose summary is the empty
string is present, yet the result panel is not rendered — the JSX guard
tests JS truthiness of the summary string and the empty string is falsy. -/
theorem empty_summary_panel_not_rendered :
    resultPanel (some "") = none ∧ (some "" : Option String).isSome = true :=
  by decide

/-- Claim C8 (amended): the result panel is rendered if and only if a result
is present and its summary is a non-empty string; when rendered it shows
the summary verbatim. -/
theorem result_panel_iff_nonempty_summary (o : Option String) :
    (resultPanel o = none ↔ o = none ∨ o = some "") ∧
    (∀ s : String, s ≠ "" → resultPanel (some s) = some s) := by
  constructor
  · cases o with
    | none => simp [resultPanel]
    | some s =>
      by_cases hs : s = "" <;> simp [resultPanel, hs]
  · intro s hs
    simp [resultPanel, hs]

theorem result_panel_iff_nonempty_summary_witness :
    resultPanel (some "Found RTX 5070 at 599") =
      some "Found RTX 5070 at 599" :=
  (result_panel_iff_nonempty_summary (some "Found RTX 5070 at 599")).2 _
    (by decide)

/-- Claim C9: a submission whose intent text trims to the empty string is a
no-op: the submit handler returns before onSubmit, so the session is
unchanged and nothing reaches the transport. -/
theorem blank_intent_noop (st : ConnStatus) (value : String)
    (hasSocket : Bool) (s : Session) (h : jsTrim value = "") :
    handleSubmit st value hasSocket s = ⟨s, []⟩ := by
  simp [handleSubmit, h]

theorem blank_intent_noop_witness :
    handleSubmit ConnStatus.connected "   " true
        (Session.mk [StateUpdate.mk "n" "t" "done" 0 1 []] (some "x")) =
      SubmitResult.mk
        (Session.mk [StateUpdate.mk "n" "t" "done" 0 1 []] (some "x")) [] :=
  blank_intent_noop ConnStatus.connected "   " true _ (by decide)

/-! ## Invariant of the connection manager -/

theorem getD_set_self {α : Type} {l : List α} {i : Nat} (r d : α)
    (h : i < l.length) : (l.set i r).getD i d = r := by
  rw [List.getD_eq_getD_get?, List.get?_set_eq_of_lt _ h, Option.getD_some]

theorem getD_set_ne {α : Type} {l : List α} {i j : Nat} (r d : α)
    (h : i ≠ j) : (l.set i r).getD j d = l.getD j d := by
  rw [List.getD_eq_getD_get?, List.get?_set_ne _ _ h,
    ← List.getD_eq_getD_get?]

theorem rs_lt_of_ne_closed {σ : SysState} {i : Nat}
    (h : readyStateOf σ i ≠ .CLOSED) : i < σ.sockets.length := by
  by_contra hge
  exact h (List.getD_eq_default σ.sockets ReadyState.CLOSED
    (Nat.le_of_not_lt hge))

theorem mem_len_le_one {α : Type} {t : α} {T : List α}
    (h2 : T.length ≤ 1) (hm : t ∈ T) : T = [t] := by
  cases T with
  | nil => cases hm
  | cons x xs =>
    cases xs with
    | nil => simp at hm; rw [hm]
    | cons y ys => simp at h2

/-- Inductive invariant of the connection manager: every socket instance
other than the one wsRef points at is CLOSED (a stale instance is dead and
delivers no further events); at most one reconnect timer is ever pending;
and while one is pending every instance, the current one included, is
CLOSED. -/
def SysInv (σ : SysState) : Prop :=
  (∀ i, i < σ.sockets.length → σ.wsRef ≠ some i →
    readyStateOf σ i = .CLOSED) ∧
  σ.timers.length ≤ 1 ∧
  (σ.timers ≠ [] → ∀ i, i < σ.sockets.length → readyStateOf σ i = .CLOSED)

theorem sysInv_init : SysInv initState := by
  refine ⟨?_, by simp [initState, connect, currentOpen], ?_⟩
  · intro i hi hne
    simp [initState, connect, currentOpen] at hi hne
    omega
  · intro h
    simp [initState, connect, currentOpen] at h

theorem sysInv_step (σ : SysState) (e : Ev) (hI : SysInv σ)
    (hd : deliverable σ e = true) : SysInv (step σ e) := by
  obtain ⟨h1, h2, h3⟩ := hI
  cases e with
  | sockOpen i =>
    simp only [deliverable, beq_iff_eq] at hd
    have hne₀ : readyStateOf σ i ≠ .CLOSED := by rw [hd]; simp
    have hlt : i < σ.sockets.length := rs_lt_of_ne_closed hne₀
    have hcur : σ.wsRef = some i := by
      by_contra hne
      exact hne₀ (h1 i hlt hne)
    have hT : σ.timers = [] := by
      by_contra hT
      exact hne₀ (h3 hT i hlt)
    refine ⟨?_, ?_, ?_⟩
    · intro j hj hne
      simp only [step, List.length_set] at hj hne ⊢
      have hij : i ≠ j := by
        rintro rfl
        rw [hcur] at hne
        exact hne rfl
      show (σ.sockets.set i .OPEN).getD j .CLOSED = .CLOSED
      rw [getD_set_ne _ _ hij]
      exact h1 j hj hne
    · simp only [step]
      exact h2
    · intro hT'
      simp only [step] at hT'
      exact absurd hT (by simpa using hT')
  | sockMessage i f =>
    exact ⟨h1, h2, h3⟩
  | sockError i =>
    simp only [deliverable, Bool.or_eq_true, beq_iff_eq] at hd
    have hne₀ : readyStateOf σ i ≠ .CLOSED := by
      rcases hd with hd | hd <;> rw [hd] <;> simp
    have hlt : i < σ.sockets.length := rs_lt_of_ne_closed hne₀
    have hcur : σ.wsRef = some i := by
      by_contra hne
      exact hne₀ (h1 i hlt hne)
    have hT : σ.timers = [] := by
      by_contra hT
      exact hne₀ (h3 hT i hlt)
    have hstep : step σ (.sockError i) =
        { σ with sockets := σ.sockets.set i .CLOSING } := by
      simp only [step, closeSocket]
      rcases hd with hd | hd <;> rw [hd]
    rw [hstep]
    refine ⟨?_, h2, ?_⟩
    · intro j hj hne
      simp only [List.length_set] at hj
      have hij : i ≠ j := by
        rintro rfl
        rw [hcur] at hne
        exact hne rfl
      show (σ.sockets.set i .CLOSING).getD j .CLOSED = .CLOSED
      rw [getD_set_ne _ _ hij]
      exact h1 j hj hne
    · intro hT'
      exact absurd hT (by simpa using hT')
  | sockClose i =>
    simp only [deliverable, bne_iff_ne, ne_eq] at hd
    have hlt : i < σ.sockets.length := rs_lt_of_ne_closed hd
    have hcur : σ.wsRef = some i := by
      by_contra hne
      exact hd (h1 i hlt hne)
    have hT : σ.timers = [] := by
      by_contra hT
      exact hd (h3 hT i hlt)
    refine ⟨?_, ?_, ?_⟩
    · intro j hj hne
      simp only [step, List.length_set] at hj hne ⊢
      show (σ.sockets.set i .CLOSED).getD j .CLOSED = .CLOSED
      rcases Decidable.eq_or_ne i j with rfl | hij
      · exact getD_set_self _ _ hlt
      · rw [getD_set_ne _ _ hij]
        exact h1 j hj hne
    · simp only [step, hT]
      simp
    · intro _ j hj
      simp only [step, List.length_set] at hj ⊢
      show (σ.sockets.set i .CLOSED).getD j .CLOSED = .CLOSED
      rcases Decidable.eq_or_ne i j with rfl | hij
      · exact getD_set_self _ _ hlt
      · rw [getD_set_ne _ _ hij]
        refine h1 j hj ?_
        rw [hcur]
        intro hc
        exact hij (by injection hc)
  | timerFire t =>
    simp only [deliverable, Bool.and_eq_true, decide_eq_true_eq] at hd
    have hmem : t ∈ σ.timers := by
      have := hd.1
      simpa [List.contains_iff_exists_mem_beq, beq_iff_eq] using this
    have hTne : σ.timers ≠ [] := by
      intro h
      rw [h] at hmem
      cases hmem
    have hT : σ.timers = [t] := mem_len_le_one h2 hmem
    have hco : currentOpen { σ with timers := σ.timers.erase t } = false := by
      unfold currentOpen
      cases hw : σ.wsRef with
      | none => rfl
      | some i =>
        have hcl : readyStateOf σ i = .CLOSED := by
          rcases Nat.lt_or_ge i σ.sockets.length with hlt | hge
          · exact h3 hTne i hlt
          · exact List.getD_eq_default σ.sockets ReadyState.CLOSED hge
        show (readyStateOf { σ with timers := σ.timers.erase t } i
          == ReadyState.OPEN) = false
        have : readyStateOf { σ with timers := σ.timers.erase t } i =
            readyStateOf σ i := rfl
        rw [this, hcl]
        rfl
    have hstep : step σ (.timerFire t) =
        { σ with sockets := σ.sockets ++ [.CONNECTING],
                 wsRef := some σ.sockets.length,
                 timers := σ.timers.erase t } := by
      simp only [step, connect, hco, Bool.false_eq_true, if_false]
    rw [hstep]
    have herase : σ.timers.erase t = [] := by
      rw [hT]
      simp
    refine ⟨?_, ?_, ?_⟩
    · intro j hj hne
      simp only [List.length_append, List.length_singleton] at hj
      have hjne : j ≠ σ.sockets.length := by
        intro h
        exact hne (by rw [h])
      have hjlt : j < σ.sockets.length := by omega
      show (σ.sockets ++ [ReadyState.CONNECTING]).getD j .CLOSED = .CLOSED
      rw [List.getD_append _ _ _ _ hjlt]
      exact h3 hTne j hjlt
    · rw [herase]
      simp
    · intro h
      exact absurd herase h
  | tick d =>
    exact ⟨h1, h2, h3⟩
  | submit v =>
    exact ⟨h1, h2, h3⟩
  | dispose =>
    cases hw : σ.wsRef with
    | none =>
      have hstep : step σ .dispose = { σ with disposed := true } := by
        simp only [step, hw]
      rw [hstep]
      exact ⟨fun i hi hne => h1 i hi hne, h2, fun h i hi => h3 h i hi⟩
    | some i =>
      rcases hrs : readyStateOf σ i with h' | h' | h' | h'
      all_goals {
        first
        | -- CONNECTING or OPEN: close() sets the socket CLOSING
          (have hstep : step σ .dispose =
              { σ with sockets := σ.sockets.set i .CLOSING,
                       disposed := true } := by
            simp only [step, hw, closeSocket, hrs]
           have hlt : i < σ.sockets.length :=
             rs_lt_of_ne_closed (by rw [hrs]; simp)
           have hT : σ.timers = [] := by
             by_contra hT
             have := h3 hT i hlt
             rw [hrs] at this
             cases this
           rw [hstep]
           refine ⟨?_, h2, ?_⟩
           · intro j hj hne
             simp only [List.length_set] at hj
             have hij : i ≠ j := by
               rintro rfl
               rw [hw] at hne
               exact hne rfl
             show (σ.sockets.set i .CLOSING).getD j .CLOSED = .CLOSED
             rw [getD_set_ne _ _ hij]
             exact h1 j hj hne
           · intro hT'
             exact absurd hT (by simpa using hT'))
        | -- CLOSING or CLOSED: close() is a no-op
          (have hstep : step σ .dispose = { σ with disposed := true } := by
            simp only [step, hw, closeSocket, hrs]
           rw [hstep]
           exact ⟨fun j hj hne => h1 j hj hne, h2, fun h j hj => h3 h j hj⟩)
      }

/-- Every reachable state of the component satisfies the invariant. -/
theorem reachable_sysInv (σ : SysState) (h : Reachable σ) : SysInv σ := by
  induction h with
  | init => exact sysInv_init
  | step σ' e _ hd ih => exact sysInv_step σ' e ih hd

theorem closeSocket_connSt (σ : SysState) (i : Nat) :
    (closeSocket σ i).connSt = σ.connSt := by
  unfold closeSocket
  cases readyStateOf σ i <;> rfl

theorem connect_connSt (σ : SysState) :
    (connect σ).connSt = σ.connSt := by
  unfold connect
  split <;> rfl

/-! ## Claims about the connection manager -/

/-- Claim C5: after a reconnect creates a new connection instance, no
callback of the old instance ever modifies the current session state or
the connectivity signal. The handlers own no instance identity check, but
in every reachable state every instance other than the one wsRef points at
is already CLOSED — a new instance is only created by the timer that the
old instance's own close event scheduled — so no open, message, error or
close event of a stale instance is ever deliverable, and no stale callback
ever runs. -/
theorem stale_instance_never_fires (σ : SysState) (hr : Reachable σ)
    (i : Nat) (hstale : σ.wsRef ≠ some i) :
    readyStateOf σ i = .CLOSED ∧
    (∀ f, deliverable σ (.sockMessage i f) = false) ∧
    deliverable σ (.sockOpen i) = false ∧
    deliverable σ (.sockError i) = false ∧
    deliverable σ (.sockClose i) = false := by
  obtain ⟨h1, _, _⟩ := reachable_sysInv σ hr
  have hcl : readyStateOf σ i = .CLOSED := by
    rcases Nat.lt_or_ge i σ.sockets.length with hlt | hge
    · exact h1 i hlt hstale
    · exact List.getD_eq_default σ.sockets ReadyState.CLOSED hge
  refine ⟨hcl, fun f => ?_, ?_, ?_, ?_⟩ <;> simp [deliverable, hcl]

/-- A reachable state holding a stale instance: the first socket's
connection attempt is refused (close event), the reconnect timer fires
3000 ms later, and a second instance now exists while instance 0 is stale. -/
def c5state : SysState :=
  step (step (step initState (.sockClose 0)) (.tick 3000)) (.timerFire 3000)

theorem c5state_reachable : Reachable c5state :=
  Reachable.step _ _
    (Reachable.step _ _
      (Reachable.step _ _ Reachable.init (by decide))
      (by decide))
    (by decide)

theorem stale_instance_never_fires_witness :
    c5state.wsRef = some 1 ∧
    readyStateOf c5state 0 = ReadyState.CLOSED ∧
    deliverable c5state (Ev.sockOpen 0) = false :=
  ⟨by decide,
   (stale_instance_never_fires c5state c5state_reachable 0 (by decide)).1,
   (stale_instance_never_fires c5state c5state_reachable 0
     (by decide)).2.2.1⟩

/-- The event trace of claim C6's failing input: the handshake completes,
the component is disposed (the useEffect cleanup calls close()), the
socket's close event fires, 3000 ms pass, and the timer that the close
handler scheduled fires. -/
def c6trace : List Ev :=
  [.sockOpen 0, .dispose, .sockClose 0, .tick 3000, .timerFire 3000]

/-- Claim C6 is violated by the code: the cleanup closes the socket, but
ws.onclose unconditionally runs setTimeout(connect, RECONNECT_INTERVAL_MS)
and no clearTimeout exists anywhere, so a reconnect is scheduled after
disposal and fires, creating a second connection instance on a disposed
surface. Every event of the trace is deliverable, so this run is a real
execution of the model. -/
theorem reconnect_survives_dispose :
    (runEvents initState (c6trace.take 2)).disposed = true ∧
    (runEvents initState (c6trace.take 3)).timers = [3000] ∧
    (runEvents initState c6trace).disposed = true ∧
    (runEvents initState c6trace).sockets.length = 2 ∧
    (∀ k, k < 5 → deliverable (runEvents initState (c6trace.take k))
      (c6trace.getD k .dispose) = true) := by decide

/-- Claim C7 (amended): every disconnect — a close event, whether
spontaneous or following the error handler's ws.close(), runs the same
onclose path — schedules exactly one reconnection attempt, to fire
RECONNECT_INTERVAL_MS = 3000 ms later; a scheduled callback cannot run
before its fire time; running it consumes exactly that one timer and makes
the single connect() attempt; and since every later disconnect does the
same, this repeats until a connection succeeds. Disposal however does not
cancel a pending timer, so retries do not stop at disposal. -/
theorem one_retry_per_disconnect (σ : SysState) (i t : Nat)
    (_hd : deliverable σ (.sockClose i) = true) :
    (step σ (.sockClose i)).timers =
      σ.timers ++ [σ.now + RECONNECT_INTERVAL_MS] ∧
    (step (step σ (.sockError i)) (.sockClose i)).timers =
      σ.timers ++ [σ.now + RECONNECT_INTERVAL_MS] ∧
    (deliverable σ (.timerFire t) = true → t ∈ σ.timers ∧ t ≤ σ.now) ∧
    step σ (.timerFire t) = connect { σ with timers := σ.timers.erase t } ∧
    (step σ .dispose).timers = σ.timers := by
  refine ⟨rfl, ?_, ?_, rfl, ?_⟩
  · cases hrs : readyStateOf σ i <;> simp [step, closeSocket, hrs]
  · intro h
    simp only [deliverable, Bool.and_eq_true, decide_eq_true_eq] at h
    exact ⟨by simpa [List.contains_iff_exists_mem_beq, beq_iff_eq]
      using h.1, h.2⟩
  · cases hw : σ.wsRef with
    | none => simp [step, hw]
    | some j =>
      cases hrs : readyStateOf σ j <;> simp [step, hw, closeSocket, hrs]

theorem one_retry_per_disconnect_witness :
    (step initState (Ev.sockClose 0)).timers =
      initState.timers ++ [initState.now + RECONNECT_INTERVAL_MS] :=
  (one_retry_per_disconnect initState 0 0 (by decide)).1

/-- The event trace of claim C7's counterexample: the first connection
attempt errors out, its close event schedules the retry, the surface is
disposed, and the retry fires anyway 3000 ms later. -/
def c7trace : List Ev :=
  [.sockError 0, .sockClose 0, .dispose, .tick 3000, .timerFire 3000]

/-- Claim C7 counterexample: retries do not stop when the UI surface is
disposed. After the close handler has scheduled the retry, disposing the
surface leaves the timer pending, and it fires after disposal, creating a
second connection instance. Every event of the trace is deliverable. -/
theorem retry_fires_after_dispose :
    (runEvents initState (c7trace.take 3)).disposed = true ∧
    (runEvents initState (c7trace.take 3)).timers = [3000] ∧
    (runEvents initState c7trace).sockets.length = 2 ∧
    (runEvents initState c7trace).disposed = true ∧
    (∀ k, k < 5 → deliverable (runEvents initState (c7trace.take k))
      (c7trace.getD k .dispose) = true) := by decide

/-- Claim C10: the connectivity signal is connecting only from construction
until the first open or close event: it starts as connecting, no step ever
sets it back to connecting once it has left that value, a reconnection
attempt (a timer firing connect()) leaves the signal untouched — so during
a reconnect it stays disconnected — and the open handler alone moves it to
connected when the handshake completes. -/
theorem connecting_never_returns (σ : SysState) (e : Ev) :
    initState.connSt = ConnStatus.connecting ∧
    ((step σ e).connSt = ConnStatus.connecting →
      σ.connSt = ConnStatus.connecting) ∧
    (∀ t, (step σ (.timerFire t)).connSt = σ.connSt) ∧
    (∀ i, (step σ (.sockOpen i)).connSt = ConnStatus.connected) := by
  refine ⟨rfl, ?_, fun t => connect_connSt _, fun i => rfl⟩
  intro h
  cases e with
  | sockOpen i => simp [step] at h
  | sockMessage i f => exact h
  | sockError i =>
    simp only [step] at h
    rw [closeSocket_connSt] at h
    exact h
  | sockClose i => simp [step] at h
  | timerFire t =>
    simp only [step] at h
    rw [connect_connSt] at h
    exact h
  | tick d => exact h
  | submit v => exact h
  | dispose =>
    cases hw : σ.wsRef with
    | none => simp only [step, hw] at h; exact h
    | some j =>
      simp only [step, hw] at h
      rw [closeSocket_connSt] at h
      exact h

theorem connecting_never_returns_witness :
    initState.connSt = ConnStatus.connecting :=
  (connecting_never_returns initState (Ev.tick 5)).2.1 (by decide)
